import Mathlib

/-!
Shallow embedding of `src/gpx-to-csv.py` (the Track Metric Pipeline).

Python floats are modelled as exact real numbers; `datetime` timestamps are
modelled as integer microseconds (Python `datetime` has exactly microsecond
resolution), and `timedelta` normalisation (days / seconds / microseconds,
floor semantics) is embedded with `Int.fdiv` / `Int.fmod`.  Fallible Python
arithmetic (a `ValueError` from `math.sqrt` of a negative argument, a
`ZeroDivisionError` from float division by zero, a `TypeError` from adding a
`timedelta` to a float) is modelled with `Except`.
-/

namespace GpxToCsv

/-- Runtime failures the embedded arithmetic can raise, mirroring the Python
exceptions: `sqrtDomain` for `math.sqrt` of a negative number (ValueError),
`divByZero` for float division by zero (ZeroDivisionError), and `typeError`
for adding a `timedelta` to a float (TypeError). -/
inductive Err where
  | sqrtDomain
  | divByZero
  | typeError
deriving DecidableEq

/-- A raw track point: the four scalars read for each `trkpt` element
(lines 64-73 of the source).  `Timestamp` is in integer microseconds. -/
structure Pt where
  Timestamp : ℤ
  Latitude : ℝ
  Longitude : ℝ
  Elevation : ℝ

/-- The axis names that may appear in the `dimensions` argument of
`calcMiles` (the strings `lat`, `lon`, `ele` in the source). -/
inductive Axis where
  | lat
  | lon
  | ele
deriving DecidableEq

/-- Line 12 of the source. -/
def FT_PER_DEG_LAT : ℝ := 362776.87

/-- Line 13 of the source. -/
def FT_PER_DEG_LONG : ℝ := 365165.34

/-- Line 14 of the source. -/
def FT_PER_MILE : ℝ := 5280

/-- Line 15 of the source. -/
def SMOOTHING_WINDOW_WIDTH : ℕ := 5

/-- Line 17 of the source: `0.1 * FT_PER_MILE`. -/
def MAX_DISTANCE_STEP_SIZE : ℝ := 0.1 * FT_PER_MILE

/-- Line 18 of the source. -/
def MAX_SPEED_STEP_SIZE : ℝ := 10

/-- Line 19 of the source. -/
def MAX_GRADE_STEP_SIZE : ℝ := 40

/-- The default `dimensions` argument of `calcMiles` (line 23). -/
def allAxes : List Axis := [Axis.lat, Axis.lon, Axis.ele]

/-- The accumulated `quotient` of `calcMiles` (lines 24-31): a squared term
per horizontal axis present in `dimensions`, and the raw (unsquared)
elevation delta when `ele` is present. -/
noncomputable def quotientSum (p1 p2 : Pt) (dims : List Axis) : ℝ :=
  (if Axis.lat ∈ dims then ((p2.Latitude - p1.Latitude) * FT_PER_DEG_LAT) ^ 2 else 0)
    + (if Axis.lon ∈ dims then ((p2.Longitude - p1.Longitude) * FT_PER_DEG_LONG) ^ 2 else 0)
    + (if Axis.ele ∈ dims then p2.Elevation - p1.Elevation else 0)

/-- Lines 23-33 of the source (`calcMiles`).  Python's `math.sqrt` raises
`ValueError` on a negative argument, hence the `Except`. -/
noncomputable def calcMiles (p1 p2 : Pt) (dims : List Axis) : Except Err ℝ :=
  if quotientSum p1 p2 dims < 0 then .error .sqrtDomain
  else .ok (Real.sqrt (quotientSum p1 p2 dims) / FT_PER_MILE)

/-- `calcMiles` called with its default `dimensions` argument
(`['lat','lon','ele']`, line 23), as at lines 36 and 75. -/
noncomputable def calcMilesDefault (p1 p2 : Pt) : Except Err ℝ :=
  calcMiles p1 p2 allAxes

/-- The `microseconds` field of a Python `timedelta` holding `d`
microseconds: normalised to `0 ≤ microseconds < 1000000` with floor
semantics. -/
def tdMicroseconds (d : ℤ) : ℤ := Int.fmod d 1000000

/-- The `seconds` field of a Python `timedelta` holding `d` microseconds:
normalised to `0 ≤ seconds < 86400` (whole days are carried by the `days`
field, which line 38 of the source never reads). -/
def tdSeconds (d : ℤ) : ℤ := Int.fmod (Int.fdiv d 1000000) 86400

/-- Line 38 of the source, as an exact rational:
`t_delta.seconds / 3600 + t_delta.microseconds / (100000 * 3600)` for a
`timedelta` of `d` microseconds. -/
def codeHours (d : ℤ) : ℚ :=
  (tdSeconds d : ℚ) / 3600 + (tdMicroseconds d : ℚ) / (100000 * 3600)

/-- The elapsed time of `d` microseconds expressed in hours as a full
(untruncated) duration: `d / (1000000 * 3600)`. -/
def fullHours (d : ℤ) : ℚ := (d : ℚ) / (1000000 * 3600)

/-- Lines 35-39 of the source (`calcSpeed`): `calcMiles` with the default
axes, then division by the hours of line 38; division by zero raises. -/
noncomputable def calcSpeed (p1 p2 : Pt) : Except Err ℝ :=
  match calcMilesDefault p1 p2 with
  | .error e => .error e
  | .ok miles =>
      let h := codeHours (p2.Timestamp - p1.Timestamp)
      if h = 0 then .error .divByZero else .ok (miles / (h : ℝ))

/-- Lines 41-44 of the source (`calcGrade`):
`rise_miles / dist_miles * 100 if dist_miles else 0.0`, where `dist_miles`
is `calcMiles` over the horizontal axes only (never a sqrt-domain error,
but the propagation structure is kept). -/
noncomputable def calcGrade (p1 p2 : Pt) : Except Err ℝ :=
  match calcMiles p1 p2 [Axis.lat, Axis.lon] with
  | .error e => .error e
  | .ok dist_miles =>
      if dist_miles = 0 then .ok 0
      else .ok ((p2.Elevation - p1.Elevation) / FT_PER_MILE / dist_miles * 100)

/-- A derived point: the raw point together with the `Speed`, `Grade` and
`Distance` fields stored by `parseGPX` (lines 79-86). -/
structure DPoint where
  pt : Pt
  Speed : ℝ
  Grade : ℝ
  Distance : ℝ

/-- The first derived point of a track (lines 83-86): all derived metrics
are 0. -/
def mkFirstPoint (p : Pt) : DPoint := ⟨p, 0, 0, 0⟩

/-- One step of the `parseGPX` fold for a non-first point (lines 74-81).
Evaluation order follows the source: `calcMiles`, `calcSpeed`, `calcGrade`,
then step clamping.  On line 81, when `distance_since_last` is not below
`MAX_DISTANCE_STEP_SIZE`, Python evaluates
`points[-1]["Distance"] + points[-1]["Speed"] * duration_since_last`, which
multiplies a float by a `timedelta` and then adds the resulting `timedelta`
to a float - a `TypeError`. -/
noncomputable def stepPoint (prev : DPoint) (curr : Pt) : Except Err DPoint :=
  match calcMilesDefault prev.pt curr with
  | .error e => .error e
  | .ok distance_since_last =>
    match calcSpeed prev.pt curr with
    | .error e => .error e
    | .ok speed =>
      match calcGrade prev.pt curr with
      | .error e => .error e
      | .ok grade =>
        if distance_since_last < MAX_DISTANCE_STEP_SIZE then
          .ok
            { pt := curr
              Speed := if |speed - prev.Speed| < MAX_SPEED_STEP_SIZE then speed else prev.Speed
              Grade := if |grade - prev.Grade| < MAX_GRADE_STEP_SIZE then grade else prev.Grade
              Distance := prev.Distance + distance_since_last }
        else .error .typeError

/-- The tail of the `parseGPX` fold: processes the remaining raw points
given the previously appended derived point. -/
noncomputable def parseGPXGo (prev : DPoint) : List Pt → Except Err (List DPoint)
  | [] => .ok []
  | p :: ps =>
    match stepPoint prev p with
    | .error e => .error e
    | .ok d =>
      match parseGPXGo d ps with
      | .error e => .error e
      | .ok tl => .ok (d :: tl)

/-- The per-point fold of `parseGPX` (lines 74-97) over the decoded raw
point sequence.  The XML decoding itself (the Point Source) and the
smoothed columns (handled by `smoothGo` below, whose state is independent
of the clamping state) are outside this fold. -/
noncomputable def parseGPXPoints : List Pt → Except Err (List DPoint)
  | [] => .ok []
  | p :: ps =>
    match parseGPXGo (mkFirstPoint p) ps with
    | .error e => .error e
    | .ok tl => .ok (mkFirstPoint p :: tl)

/-- The elapsed duration (microseconds) between the output point at index
`i` and the first output point. -/
def durationSinceStart (out : List DPoint) (i : ℕ) : ℤ :=
  (out.getD i (mkFirstPoint ⟨0, 0, 0, 0⟩)).pt.Timestamp
    - (out.getD 0 (mkFirstPoint ⟨0, 0, 0, 0⟩)).pt.Timestamp

/-- The rolling-window smoothing fold of lines 87-95, for one metric:
`seen` is the list of values already processed (the metric column of
`points`), `s` the running window sum.  When at least `W` values have been
seen, the value `W` positions back (`points[-W]`) leaves the sum, the new
value enters it, and the output is `sum / W`; otherwise the new value
enters the sum and the output is `sum / (len(points) + 1)`. -/
def smoothGo {α : Type} [DivisionRing α] (W : ℕ) (seen : List α) (s : α) :
    List α → List α
  | [] => []
  | v :: vs =>
    if W ≤ seen.length then
      ((s - seen.getD (seen.length - W) 0 + v) / (W : α)) ::
        smoothGo W (seen ++ [v]) (s - seen.getD (seen.length - W) 0 + v) vs
    else
      ((s + v) / ((seen.length + 1 : ℕ) : α)) ::
        smoothGo W (seen ++ [v]) (s + v) vs

/-- The smoothed column produced for a metric column `vs` by the fold of
lines 87-95, starting from the empty history and a zero sum (lines 50-54). -/
def smoothList {α : Type} [DivisionRing α] (W : ℕ) (vs : List α) : List α :=
  smoothGo W [] 0 vs

/-- The naive recomputed mean: the arithmetic mean of the last
`min W (i + 1)` values among `v_0 .. v_i`. -/
def windowMean {α : Type} [DivisionRing α] (W : ℕ) (l : List α) (i : ℕ) : α :=
  ((l.take (i + 1)).drop (i + 1 - W)).sum / ((min W (i + 1) : ℕ) : α)

/-- The sum under the square root of `planarDistance`, written following the
spec's words (§4.1): per included axis, the latitude-degree delta times the
feet-per-degree-latitude constant, squared; the longitude-degree delta times
the feet-per-degree-longitude constant, squared; and the raw (unsquared)
elevation delta in feet.  Declared separately from `quotientSum` so the code
can be compared against the spec's description. -/
noncomputable def specAxisSum (a b : Pt) (axes : List Axis) : ℝ :=
  (if Axis.lat ∈ axes then ((b.Latitude - a.Latitude) * FT_PER_DEG_LAT) ^ 2 else 0)
    + (if Axis.lon ∈ axes then ((b.Longitude - a.Longitude) * FT_PER_DEG_LONG) ^ 2 else 0)
    + (if Axis.ele ∈ axes then b.Elevation - a.Elevation else 0)

/-- Grade written following the spec's words (§4.1): signed elevation-only
rise in miles divided by the horizontal-only planar distance
(latitude + longitude axes) in miles, times 100; defined as 0 when the
horizontal distance is exactly zero. -/
noncomputable def specGrade (a b : Pt) : ℝ :=
  if Real.sqrt (((b.Latitude - a.Latitude) * FT_PER_DEG_LAT) ^ 2
        + ((b.Longitude - a.Longitude) * FT_PER_DEG_LONG) ^ 2) / 5280 = 0 then 0
  else ((b.Elevation - a.Elevation) / 5280)
      / (Real.sqrt (((b.Latitude - a.Latitude) * FT_PER_DEG_LAT) ^ 2
        + ((b.Longitude - a.Longitude) * FT_PER_DEG_LONG) ^ 2) / 5280) * 100

/-! ### Concrete points used by witnesses and counterexamples -/

/-- The origin point: timestamp 0, all coordinates 0. -/
def ptO : Pt := ⟨0, 0, 0, 0⟩

/-- One hour (3600000000 microseconds) after `ptO`, one mile north:
the latitude delta times `FT_PER_DEG_LAT` is exactly 5280 ft. -/
noncomputable def ptOneHour : Pt := ⟨3600000000, 528000 / 36277687, 0, 0⟩

/-- 36000 microseconds after `ptO` (the buggy hours formula of line 38
yields 1/10000 of an hour), one mile north: candidate speed 10000 mph. -/
noncomputable def ptFast : Pt := ⟨36000, 528000 / 36277687, 0, 0⟩

/-- Like `ptFast` but 10561 ft higher: the all-axes quotient is
`5280 ^ 2 + 10561 = 5281 ^ 2`, the horizontal distance is 1 mile, and the
candidate grade is about 200 percent. -/
noncomputable def ptClimb : Pt := ⟨36000, 528000 / 36277687, 0, 10561⟩

/-- Same position as `ptO`, one hour later, 50 ft higher. -/
def ptEleUp50 : Pt := ⟨3600000000, 0, 0, 50⟩

/-- Same position as `ptO`, one hour later, 50 ft lower: the all-axes
quotient is `-50`, so `math.sqrt` raises. -/
def ptEleDrop : Pt := ⟨3600000000, 0, 0, -50⟩

/-- One hour after `ptO` and 5280 miles north (latitude delta times
`FT_PER_DEG_LAT` is 27878400 ft), so the incremental distance reaches the
`MAX_DISTANCE_STEP_SIZE` threshold. -/
noncomputable def ptFar : Pt := ⟨3600000000, 2787840000 / 36277687, 0, 0⟩

/-- A previous derived point at the origin whose stored speed is 10. -/
def dpPrev10 : DPoint := ⟨ptO, 10, 0, 0⟩

/-- The derived point `stepPoint dpPrev10 ptFast` produces: the candidate
speed 10000 is rejected (step 9990 ≥ 10), so the stored speed stays 10. -/
noncomputable def dpStep5 : DPoint := ⟨ptFast, 10, 0, 1⟩

/-- The derived point the pipeline produces for `ptOneHour` after `ptO`. -/
noncomputable def dpOneHour : DPoint := ⟨ptOneHour, 1, 0, 1⟩

/-- The derived point the pipeline produces for `ptClimb` after `ptO`: both
candidate speed (10001.89...) and candidate grade (200.01...) are rejected
against the first point's zeros. -/
noncomputable def dpClimb : DPoint := ⟨ptClimb, 0, 0, 5281 / 5280⟩

/-! ## Helper lemmas -/

/-- The all-axes quotient, unfolded. -/
theorem quotientSum_allAxes (a b : Pt) :
    quotientSum a b allAxes
      = ((b.Latitude - a.Latitude) * FT_PER_DEG_LAT) ^ 2
        + ((b.Longitude - a.Longitude) * FT_PER_DEG_LONG) ^ 2
        + (b.Elevation - a.Elevation) := by
  simp [quotientSum, allAxes]

/-- The horizontal-axes quotient, unfolded. -/
theorem quotientSum_horiz (a b : Pt) :
    quotientSum a b [Axis.lat, Axis.lon]
      = ((b.Latitude - a.Latitude) * FT_PER_DEG_LAT) ^ 2
        + ((b.Longitude - a.Longitude) * FT_PER_DEG_LONG) ^ 2 := by
  simp [quotientSum]

/-- The horizontal-axes quotient is a sum of squares, hence nonnegative. -/
theorem quotientSum_horiz_nonneg (a b : Pt) :
    0 ≤ quotientSum a b [Axis.lat, Axis.lon] := by
  rw [quotientSum_horiz]; positivity

/-- `calcMiles` succeeds exactly on a nonnegative quotient. -/
theorem calcMiles_ok_of_nonneg {a b : Pt} {dims : List Axis}
    (h : 0 ≤ quotientSum a b dims) :
    calcMiles a b dims = .ok (Real.sqrt (quotientSum a b dims) / FT_PER_MILE) := by
  rw [calcMiles, if_neg (not_lt.mpr h)]

/-- A successful `calcMiles` result is nonnegative. -/
theorem calcMiles_ok_nonneg {a b : Pt} {dims : List Axis} {r : ℝ}
    (h : calcMiles a b dims = .ok r) : 0 ≤ r := by
  rw [calcMiles] at h
  by_cases hq : quotientSum a b dims < 0
  · rw [if_pos hq] at h; exact absurd h (by simp)
  · rw [if_neg hq] at h
    have hr : Real.sqrt (quotientSum a b dims) / FT_PER_MILE = r := by
      exact Except.ok.inj h
    rw [← hr, FT_PER_MILE]
    positivity

/-- Evaluation of the default-axes `calcMiles` when the quotient is a
perfect square. -/
theorem calcMiles_sq_eval {a b : Pt} {r : ℝ}
    (hq : quotientSum a b allAxes = r ^ 2) (hr : 0 ≤ r) :
    calcMilesDefault a b = .ok (r / 5280) := by
  rw [calcMilesDefault, calcMiles, hq, if_neg (not_lt.mpr (sq_nonneg r)),
    Real.sqrt_sq hr, FT_PER_MILE]

/-- Evaluation of the horizontal-axes `calcMiles` when the quotient is a
perfect square. -/
theorem calcMiles_horiz_sq_eval {a b : Pt} {r : ℝ}
    (hq : quotientSum a b [Axis.lat, Axis.lon] = r ^ 2) (hr : 0 ≤ r) :
    calcMiles a b [Axis.lat, Axis.lon] = .ok (r / 5280) := by
  rw [calcMiles, hq, if_neg (not_lt.mpr (sq_nonneg r)), Real.sqrt_sq hr, FT_PER_MILE]

/-- Evaluation of `calcSpeed` from evaluated miles and hours. -/
theorem calcSpeed_eval {a b : Pt} {m : ℝ} {q : ℚ}
    (hm : calcMilesDefault a b = .ok m)
    (hq : codeHours (b.Timestamp - a.Timestamp) = q) (hq0 : q ≠ 0) :
    calcSpeed a b = .ok (m / (q : ℝ)) := by
  simp only [calcSpeed, hm, hq]
  rw [if_neg hq0]

/-- Evaluation of `calcGrade` when the horizontal quotient is a nonzero
perfect square. -/
theorem calcGrade_eval {a b : Pt} {r : ℝ}
    (hq : quotientSum a b [Axis.lat, Axis.lon] = r ^ 2) (hr : 0 < r) :
    calcGrade a b = .ok ((b.Elevation - a.Elevation) / 5280 / (r / 5280) * 100) := by
  have hm := calcMiles_horiz_sq_eval hq hr.le
  simp only [calcGrade, hm]
  rw [if_neg (by positivity), FT_PER_MILE]

/-- Invariant-carrying correctness of the rolling-window fold: if the running
sum `s` is the sum of the last `min W |seen|` values of the history `seen`,
then every output of `smoothGo` is the naive mean over the full value
sequence `seen ++ vs`. -/
theorem smoothGo_spec {α : Type} [DivisionRing α] {W : ℕ} (hW : 1 ≤ W)
    (vs : List α) : ∀ (seen : List α) (s : α),
    s = (seen.drop (seen.length - W)).sum →
    ∀ i, i < vs.length →
      (smoothGo W seen s vs)[i]? = some (windowMean W (seen ++ vs) (seen.length + i)) := by
  induction vs with
  | nil => intro seen s hs i hi; simp at hi
  | cons v vs ih =>
    intro seen s hs i hi
    have htake : (seen ++ v :: vs).take (seen.length + 1) = seen ++ [v] := by
      rw [List.take_append_eq_append_take, List.take_of_length_le (by omega)]
      congr 1
      have h1 : seen.length + 1 - seen.length = 1 := by omega
      rw [h1]
      simp
    by_cases hfull : W ≤ seen.length
    · have hlen : seen.length - W < seen.length := by omega
      have hsum2 : s - seen.getD (seen.length - W) 0 + v
          = ((seen ++ [v]).drop (seen.length + 1 - W)).sum := by
        rw [List.getD_eq_getElem seen 0 hlen, hs, List.drop_eq_getElem_cons hlen,
          List.sum_cons, List.drop_append_of_le_length (by omega), List.sum_append]
        have h1 : seen.length + 1 - W = seen.length - W + 1 := by omega
        rw [h1]
        simp
      have hhead : (s - seen.getD (seen.length - W) 0 + v) / (W : α)
          = windowMean W (seen ++ v :: vs) seen.length := by
        rw [windowMean, htake, ← hsum2, min_eq_left (by omega)]
      rw [smoothGo, if_pos hfull]
      match i with
      | 0 => rw [List.getElem?_cons_zero, hhead]; rfl
      | j + 1 =>
        rw [List.getElem?_cons_succ]
        have hinv : s - seen.getD (seen.length - W) 0 + v
            = ((seen ++ [v]).drop ((seen ++ [v]).length - W)).sum := by
          rw [hsum2]; congr 2; simp
        have h := ih (seen ++ [v]) (s - seen.getD (seen.length - W) 0 + v) hinv j
          (by simpa using hi)
        rw [h]
        congr 2
        · simp
        · simp; omega
    · have h0 : seen.length - W = 0 := by omega
      have hsum2 : s + v = ((seen ++ [v]).drop (seen.length + 1 - W)).sum := by
        have h1 : seen.length + 1 - W = 0 := by omega
        rw [h1, List.drop_zero, List.sum_append, hs, h0, List.drop_zero]
        simp
      have hhead : (s + v) / ((seen.length + 1 : ℕ) : α)
          = windowMean W (seen ++ v :: vs) seen.length := by
        rw [windowMean, htake, ← hsum2, min_eq_right (by omega)]
      rw [smoothGo, if_neg hfull]
      match i with
      | 0 => rw [List.getElem?_cons_zero, hhead]; rfl
      | j + 1 =>
        rw [List.getElem?_cons_succ]
        have hinv : s + v = ((seen ++ [v]).drop ((seen ++ [v]).length - W)).sum := by
          rw [hsum2]; congr 2; simp
        have h := ih (seen ++ [v]) (s + v) hinv j (by simpa using hi)
        rw [h]
        congr 2
        · simp
        · simp; omega

/-- Inversion of a successful `stepPoint`: the three candidate computations
succeeded, the distance increment was below the threshold, and the produced
point stores the clamped values. -/
theorem stepPoint_ok_inv {prev : DPoint} {curr : Pt} {d2 : DPoint}
    (hstep : stepPoint prev curr = .ok d2) :
    ∃ dist s g, calcMilesDefault prev.pt curr = .ok dist ∧
      calcSpeed prev.pt curr = .ok s ∧ calcGrade prev.pt curr = .ok g ∧
      dist < MAX_DISTANCE_STEP_SIZE ∧
      d2 = { pt := curr
             Speed := if |s - prev.Speed| < MAX_SPEED_STEP_SIZE then s else prev.Speed
             Grade := if |g - prev.Grade| < MAX_GRADE_STEP_SIZE then g else prev.Grade
             Distance := prev.Distance + dist } := by
  cases hd : calcMilesDefault prev.pt curr with
  | error e => simp only [stepPoint, hd] at hstep; exact Except.noConfusion hstep
  | ok dist =>
    cases hs : calcSpeed prev.pt curr with
    | error e => simp only [stepPoint, hd, hs] at hstep; exact Except.noConfusion hstep
    | ok s =>
      cases hg : calcGrade prev.pt curr with
      | error e =>
        simp only [stepPoint, hd, hs, hg] at hstep
        exact Except.noConfusion hstep
      | ok g =>
        simp only [stepPoint, hd, hs, hg] at hstep
        by_cases hlt : dist < MAX_DISTANCE_STEP_SIZE
        · rw [if_pos hlt] at hstep
          exact ⟨dist, s, g, rfl, rfl, rfl, hlt, (Except.ok.inj hstep).symm⟩
        · rw [if_neg hlt] at hstep; exact absurd hstep (by simp)

/-- Evaluation of `stepPoint` from evaluated candidates. -/
theorem stepPoint_eval {prev : DPoint} {curr : Pt} {dist s g : ℝ}
    (hd : calcMilesDefault prev.pt curr = .ok dist)
    (hs : calcSpeed prev.pt curr = .ok s) (hg : calcGrade prev.pt curr = .ok g)
    (hlt : dist < MAX_DISTANCE_STEP_SIZE) :
    stepPoint prev curr = .ok
      { pt := curr
        Speed := if |s - prev.Speed| < MAX_SPEED_STEP_SIZE then s else prev.Speed
        Grade := if |g - prev.Grade| < MAX_GRADE_STEP_SIZE then g else prev.Grade
        Distance := prev.Distance + dist } := by
  simp only [stepPoint, hd, hs, hg]
  rw [if_pos hlt]

/-- A successful step never decreases the stored cumulative distance. -/
theorem stepPoint_distance_mono {prev : DPoint} {curr : Pt} {d2 : DPoint}
    (hstep : stepPoint prev curr = .ok d2) : prev.Distance ≤ d2.Distance := by
  obtain ⟨dist, s, g, hd, _, _, _, hrec⟩ := stepPoint_ok_inv hstep
  have h0 : 0 ≤ dist := calcMiles_ok_nonneg hd
  rw [hrec]
  simpa using h0

/-- Along a successful run of the fold tail, stored cumulative distances
form a non-decreasing chain from the previous point. -/
theorem parseGPXGo_chain (ps : List Pt) : ∀ (prev : DPoint) (l : List DPoint),
    parseGPXGo prev ps = .ok l →
    List.Chain (fun a b => a.Distance ≤ b.Distance) prev l := by
  induction ps with
  | nil =>
    intro prev l h
    rw [parseGPXGo] at h
    rw [← Except.ok.inj h]
    exact List.Chain.nil
  | cons p ps ih =>
    intro prev l h
    cases hstep : stepPoint prev p with
    | error e => simp only [parseGPXGo, hstep] at h; exact Except.noConfusion h
    | ok d =>
      cases htl : parseGPXGo d ps with
      | error e => simp only [parseGPXGo, hstep, htl] at h; exact Except.noConfusion h
      | ok tl =>
        simp only [parseGPXGo, hstep, htl] at h
        rw [← Except.ok.inj h]
        exact List.Chain.cons (stepPoint_distance_mono hstep) (ih d tl htl)

/-- Inversion of a successful run on a list with at least two points. -/
theorem parseGPXPoints_two_inv {p0 p1 : Pt} {rest : List Pt} {out : List DPoint}
    (h : parseGPXPoints (p0 :: p1 :: rest) = .ok out) :
    ∃ d1 tl, stepPoint (mkFirstPoint p0) p1 = .ok d1 ∧
      out = mkFirstPoint p0 :: d1 :: tl := by
  cases hgo : parseGPXGo (mkFirstPoint p0) (p1 :: rest) with
  | error e => simp only [parseGPXPoints, hgo] at h; exact Except.noConfusion h
  | ok tl0 =>
    simp only [parseGPXPoints, hgo] at h
    cases hstep : stepPoint (mkFirstPoint p0) p1 with
    | error e => simp only [parseGPXGo, hstep] at hgo; exact Except.noConfusion hgo
    | ok d1 =>
      cases htl : parseGPXGo d1 rest with
      | error e => simp only [parseGPXGo, hstep, htl] at hgo; exact Except.noConfusion hgo
      | ok tl =>
        simp only [parseGPXGo, hstep, htl] at hgo
        exact ⟨d1, tl, rfl, by rw [← Except.ok.inj h, ← Except.ok.inj hgo]⟩

/-- The spec-side axis sum coincides with the code's accumulated quotient. -/
theorem specAxisSum_eq_quotientSum : specAxisSum = quotientSum := rfl

/-- Hours of the one-hour delta. -/
theorem codeHours_one_hour : codeHours 3600000000 = 1 := by
  have h1 : tdSeconds 3600000000 = 3600 := by decide
  have h2 : tdMicroseconds 3600000000 = 0 := by decide
  rw [codeHours, h1, h2]; norm_num

/-- Hours of the 36000-microsecond delta under the buggy formula of
line 38: 36000 / (100000 * 3600). -/
theorem codeHours_36000us : codeHours 36000 = 1 / 10000 := by
  have h1 : tdSeconds 36000 = 0 := by decide
  have h2 : tdMicroseconds 36000 = 36000 := by decide
  rw [codeHours, h1, h2]; norm_num

/-- All-axes quotient from `ptO` to `ptOneHour`. -/
theorem quotient_ptO_ptOneHour : quotientSum ptO ptOneHour allAxes = 5280 ^ 2 := by
  rw [quotientSum_allAxes]
  simp only [ptO, ptOneHour]
  rw [FT_PER_DEG_LAT, FT_PER_DEG_LONG]
  norm_num

/-- Distance from `ptO` to `ptOneHour` is 1 mile. -/
theorem miles_ptO_ptOneHour : calcMilesDefault ptO ptOneHour = .ok 1 := by
  rw [calcMiles_sq_eval quotient_ptO_ptOneHour (by norm_num)]
  norm_num

/-- Candidate speed from `ptO` to `ptOneHour` is 1 mph. -/
theorem speed_ptO_ptOneHour : calcSpeed ptO ptOneHour = .ok 1 := by
  have hq : codeHours (ptOneHour.Timestamp - ptO.Timestamp) = 1 := by
    simp only [ptOneHour, ptO]
    rw [show (3600000000 : ℤ) - 0 = 3600000000 by norm_num]
    exact codeHours_one_hour
  rw [calcSpeed_eval miles_ptO_ptOneHour hq (by norm_num)]
  norm_num

/-- Horizontal quotient from `ptO` to `ptOneHour`. -/
theorem quotient_horiz_ptO_ptOneHour :
    quotientSum ptO ptOneHour [Axis.lat, Axis.lon] = 5280 ^ 2 := by
  rw [quotientSum_horiz]
  simp only [ptO, ptOneHour]
  rw [FT_PER_DEG_LAT, FT_PER_DEG_LONG]
  norm_num

/-- Candidate grade from `ptO` to `ptOneHour` is 0. -/
theorem grade_ptO_ptOneHour : calcGrade ptO ptOneHour = .ok 0 := by
  rw [calcGrade_eval quotient_horiz_ptO_ptOneHour (by norm_num)]
  simp only [ptO, ptOneHour]
  norm_num

/-- The step from the first point `ptO` to `ptOneHour`. -/
theorem step_ptO_ptOneHour : stepPoint (mkFirstPoint ptO) ptOneHour = .ok dpOneHour := by
  have hd : calcMilesDefault (mkFirstPoint ptO).pt ptOneHour = .ok 1 := miles_ptO_ptOneHour
  have hs : calcSpeed (mkFirstPoint ptO).pt ptOneHour = .ok 1 := speed_ptO_ptOneHour
  have hg : calcGrade (mkFirstPoint ptO).pt ptOneHour = .ok 0 := grade_ptO_ptOneHour
  rw [stepPoint_eval hd hs hg (by rw [MAX_DISTANCE_STEP_SIZE, FT_PER_MILE]; norm_num)]
  simp only [mkFirstPoint, dpOneHour, DPoint.mk.injEq]
  rw [MAX_SPEED_STEP_SIZE, MAX_GRADE_STEP_SIZE]
  norm_num

/-- The full pipeline run on `[ptO, ptOneHour]`. -/
theorem run_ptO_ptOneHour :
    parseGPXPoints [ptO, ptOneHour] = .ok [mkFirstPoint ptO, dpOneHour] := by
  simp only [parseGPXPoints, parseGPXGo, step_ptO_ptOneHour]

/-- All-axes quotient from `ptO` to `ptFast` (same position as
`ptOneHour`). -/
theorem quotient_ptO_ptFast : quotientSum ptO ptFast allAxes = 5280 ^ 2 := by
  rw [quotientSum_allAxes]
  simp only [ptO, ptFast]
  rw [FT_PER_DEG_LAT, FT_PER_DEG_LONG]
  norm_num

/-- Distance from `ptO` to `ptFast` is 1 mile. -/
theorem miles_ptO_ptFast : calcMilesDefault ptO ptFast = .ok 1 := by
  rw [calcMiles_sq_eval quotient_ptO_ptFast (by norm_num)]
  norm_num

/-- Candidate speed from `ptO` to `ptFast` is 10000 mph (1 mile over the
buggy 1/10000-hour duration). -/
theorem speed_ptO_ptFast : calcSpeed ptO ptFast = .ok 10000 := by
  have hq : codeHours (ptFast.Timestamp - ptO.Timestamp) = 1 / 10000 := by
    simp only [ptFast, ptO]
    rw [show (36000 : ℤ) - 0 = 36000 by norm_num]
    exact codeHours_36000us
  rw [calcSpeed_eval miles_ptO_ptFast hq (by norm_num)]
  norm_num

/-- Horizontal quotient from `ptO` to `ptFast`. -/
theorem quotient_horiz_ptO_ptFast :
    quotientSum ptO ptFast [Axis.lat, Axis.lon] = 5280 ^ 2 := by
  rw [quotientSum_horiz]
  simp only [ptO, ptFast]
  rw [FT_PER_DEG_LAT, FT_PER_DEG_LONG]
  norm_num

/-- Candidate grade from `ptO` to `ptFast` is 0. -/
theorem grade_ptO_ptFast : calcGrade ptO ptFast = .ok 0 := by
  rw [calcGrade_eval quotient_horiz_ptO_ptFast (by norm_num)]
  simp only [ptO, ptFast]
  norm_num

/-- The step from `dpPrev10` (stored speed 10) to `ptFast`: the candidate
speed 10000 differs from 10 by 9990 ≥ 10 and is rejected. -/
theorem step_dpPrev10_ptFast : stepPoint dpPrev10 ptFast = .ok dpStep5 := by
  have hd : calcMilesDefault dpPrev10.pt ptFast = .ok 1 := miles_ptO_ptFast
  have hs : calcSpeed dpPrev10.pt ptFast = .ok 10000 := speed_ptO_ptFast
  have hg : calcGrade dpPrev10.pt ptFast = .ok 0 := grade_ptO_ptFast
  rw [stepPoint_eval hd hs hg (by rw [MAX_DISTANCE_STEP_SIZE, FT_PER_MILE]; norm_num)]
  simp only [dpPrev10, dpStep5, DPoint.mk.injEq]
  rw [MAX_SPEED_STEP_SIZE, MAX_GRADE_STEP_SIZE]
  norm_num

/-- All-axes quotient from `ptO` to `ptClimb`:
`5280 ^ 2 + 10561 = 5281 ^ 2`. -/
theorem quotient_ptO_ptClimb : quotientSum ptO ptClimb allAxes = 5281 ^ 2 := by
  rw [quotientSum_allAxes]
  simp only [ptO, ptClimb]
  rw [FT_PER_DEG_LAT, FT_PER_DEG_LONG]
  norm_num

/-- Distance from `ptO` to `ptClimb`. -/
theorem miles_ptO_ptClimb : calcMilesDefault ptO ptClimb = .ok (5281 / 5280) := by
  rw [calcMiles_sq_eval quotient_ptO_ptClimb (by norm_num)]

/-- Candidate speed from `ptO` to `ptClimb`: `(5281/5280) · 10000`. -/
theorem speed_ptO_ptClimb : calcSpeed ptO ptClimb = .ok (660125 / 66) := by
  have hq : codeHours (ptClimb.Timestamp - ptO.Timestamp) = 1 / 10000 := by
    simp only [ptClimb, ptO]
    rw [show (36000 : ℤ) - 0 = 36000 by norm_num]
    exact codeHours_36000us
  rw [calcSpeed_eval miles_ptO_ptClimb hq (by norm_num)]
  norm_num

/-- Horizontal quotient from `ptO` to `ptClimb`. -/
theorem quotient_horiz_ptO_ptClimb :
    quotientSum ptO ptClimb [Axis.lat, Axis.lon] = 5280 ^ 2 := by
  rw [quotientSum_horiz]
  simp only [ptO, ptClimb]
  rw [FT_PER_DEG_LAT, FT_PER_DEG_LONG]
  norm_num

/-- Candidate grade from `ptO` to `ptClimb`: `10561 ft / 1 mile` as percent. -/
theorem grade_ptO_ptClimb : calcGrade ptO ptClimb = .ok (52805 / 264) := by
  rw [calcGrade_eval quotient_horiz_ptO_ptClimb (by norm_num)]
  simp only [ptO, ptClimb]
  norm_num

/-- The step from the first point `ptO` to `ptClimb`: both candidates are
rejected against the stored zeros. -/
theorem step_ptO_ptClimb : stepPoint (mkFirstPoint ptO) ptClimb = .ok dpClimb := by
  have hd : calcMilesDefault (mkFirstPoint ptO).pt ptClimb = .ok (5281 / 5280) :=
    miles_ptO_ptClimb
  have hs : calcSpeed (mkFirstPoint ptO).pt ptClimb = .ok (660125 / 66) :=
    speed_ptO_ptClimb
  have hg : calcGrade (mkFirstPoint ptO).pt ptClimb = .ok (52805 / 264) :=
    grade_ptO_ptClimb
  rw [stepPoint_eval hd hs hg (by rw [MAX_DISTANCE_STEP_SIZE, FT_PER_MILE]; norm_num)]
  simp only [mkFirstPoint, dpClimb, DPoint.mk.injEq]
  rw [MAX_SPEED_STEP_SIZE, MAX_GRADE_STEP_SIZE]
  norm_num
  constructor
  · rw [abs_of_nonneg (by norm_num)]; norm_num
  · rw [abs_of_nonneg (by norm_num)]; norm_num

/-- The full pipeline run on `[ptO, ptClimb]`. -/
theorem run_ptO_ptClimb :
    parseGPXPoints [ptO, ptClimb] = .ok [mkFirstPoint ptO, dpClimb] := by
  simp only [parseGPXPoints, parseGPXGo, step_ptO_ptClimb]

/-- All-axes quotient from `ptO` to `ptFar`. -/
theorem quotient_ptO_ptFar : quotientSum ptO ptFar allAxes = 27878400 ^ 2 := by
  rw [quotientSum_allAxes]
  simp only [ptO, ptFar]
  rw [FT_PER_DEG_LAT, FT_PER_DEG_LONG]
  norm_num

/-- Distance from `ptO` to `ptFar` is 5280 miles. -/
theorem miles_ptO_ptFar : calcMilesDefault ptO ptFar = .ok 5280 := by
  rw [calcMiles_sq_eval quotient_ptO_ptFar (by norm_num)]
  norm_num

/-- Candidate speed from `ptO` to `ptFar` is 5280 mph. -/
theorem speed_ptO_ptFar : calcSpeed ptO ptFar = .ok 5280 := by
  have hq : codeHours (ptFar.Timestamp - ptO.Timestamp) = 1 := by
    simp only [ptFar, ptO]
    rw [show (3600000000 : ℤ) - 0 = 3600000000 by norm_num]
    exact codeHours_one_hour
  rw [calcSpeed_eval miles_ptO_ptFar hq (by norm_num)]
  norm_num

/-- Horizontal quotient from `ptO` to `ptFar`. -/
theorem quotient_horiz_ptO_ptFar :
    quotientSum ptO ptFar [Axis.lat, Axis.lon] = 27878400 ^ 2 := by
  rw [quotientSum_horiz]
  simp only [ptO, ptFar]
  rw [FT_PER_DEG_LAT, FT_PER_DEG_LONG]
  norm_num

/-- Candidate grade from `ptO` to `ptFar` is 0. -/
theorem grade_ptO_ptFar : calcGrade ptO ptFar = .ok 0 := by
  rw [calcGrade_eval quotient_horiz_ptO_ptFar (by norm_num)]
  simp only [ptO, ptFar]
  norm_num

/-! ## Claims -/

/-- C1 (code bug): the spec says speed divides distance by the elapsed time
as the full duration including its sub-second part, but line 38 of the
source divides `t_delta.microseconds` by `100000 * 3600` (not
`1000000 * 3600`): at a 0.5-second delta (500000 µs) the code computes
5/3600 hours - the sub-second part scaled by 10 - where the full duration
is 1/7200 hours. -/
theorem codeHours_subsecond_bug :
    codeHours 500000 = 5 / 3600 ∧ fullHours 500000 = 1 / 7200 ∧
      codeHours 500000 ≠ fullHours 500000 := by
  have h1 : tdSeconds 500000 = 0 := by decide
  have h2 : tdMicroseconds 500000 = 500000 := by decide
  refine ⟨?_, ?_, ?_⟩
  · rw [codeHours, h1, h2]; norm_num
  · rw [fullHours]; norm_num
  · rw [codeHours, h1, h2, fullHours]; norm_num

/-- C2: for every pair of points and every axis subset, `calcMiles` sums
one term per included axis - the latitude-degree delta times
`FT_PER_DEG_LAT`, squared; the longitude-degree delta times
`FT_PER_DEG_LONG`, squared; the raw (unsquared) elevation delta - takes
the square root of that sum and divides by 5280 to yield miles; the
default axis subset is all three. -/
theorem calcMiles_matches_spec (a b : Pt) (axes : List Axis)
    (h : 0 ≤ specAxisSum a b axes) :
    calcMiles a b axes = .ok (Real.sqrt (specAxisSum a b axes) / 5280) ∧
      calcMilesDefault a b = calcMiles a b allAxes := by
  constructor
  · rw [specAxisSum_eq_quotientSum] at h ⊢
    rw [calcMiles_ok_of_nonneg h, FT_PER_MILE]
  · rfl

/-- Witness for C2 at `ptO`, `ptEleUp50` (axis sum 50), all axes. -/
theorem calcMiles_matches_spec_witness :
    calcMiles ptO ptEleUp50 allAxes
      = .ok (Real.sqrt (specAxisSum ptO ptEleUp50 allAxes) / 5280) :=
  (calcMiles_matches_spec ptO ptEleUp50 allAxes (by
    rw [specAxisSum_eq_quotientSum, quotientSum_allAxes]
    simp only [ptO, ptEleUp50]
    norm_num)).1

/-- C3: for every sequence of metric values and every index `i ≥ 0`, the
incrementally maintained smoothed value (running sum; subtract the value
leaving the window once the count exceeds the window width `W`, divide by
`W` when full and by `i + 1` while filling) equals the arithmetic mean of
the last `min (W, i + 1)` values; in particular, input values
`[10, 20, 30, 40, 50, 60]` with `W = 3` yield smoothed values
`[10, 15, 20, 30, 40, 50]`. -/
theorem smoothed_eq_window_mean :
    (∀ (W : ℕ), 1 ≤ W → ∀ (vs : List ℝ) (i : ℕ), i < vs.length →
        (smoothList W vs)[i]? = some (windowMean W vs i)) ∧
      smoothList 3 ([10, 20, 30, 40, 50, 60] : List ℚ) = [10, 15, 20, 30, 40, 50] := by
  constructor
  · intro W hW vs i hi
    have h := smoothGo_spec hW vs [] 0 (by simp) i hi
    simpa [smoothList] using h
  · norm_num [smoothList, smoothGo]

/-- Witness for C3 at `W = 3`, `vs = [10, 20, 30, 40, 50, 60]`, `i = 3`. -/
theorem smoothed_eq_window_mean_witness :
    (smoothList 3 ([10, 20, 30, 40, 50, 60] : List ℝ))[3]?
      = some (windowMean 3 [10, 20, 30, 40, 50, 60] 3) :=
  smoothed_eq_window_mean.1 3 (by norm_num) [10, 20, 30, 40, 50, 60] 3 (by norm_num)

/-- C4: in every successful run on a non-empty input, stored cumulative
distances are pairwise non-decreasing along the output, and the first
output point carries the first raw point with cumulative distance, speed
and grade all exactly 0 and duration-since-start 0. -/
theorem parseGPX_mono_and_first_zero (p : Pt) (ps : List Pt) (out : List DPoint)
    (hrun : parseGPXPoints (p :: ps) = .ok out) :
    List.Pairwise (fun a b => a.Distance ≤ b.Distance) out ∧
      out.head? = some (mkFirstPoint p) ∧ (mkFirstPoint p).Distance = 0 ∧
      (mkFirstPoint p).Speed = 0 ∧ (mkFirstPoint p).Grade = 0 ∧
      durationSinceStart out 0 = 0 := by
  cases hgo : parseGPXGo (mkFirstPoint p) ps with
  | error e => simp only [parseGPXPoints, hgo] at hrun; exact Except.noConfusion hrun
  | ok tl =>
    simp only [parseGPXPoints, hgo] at hrun
    have hout : out = mkFirstPoint p :: tl := (Except.ok.inj hrun).symm
    subst hout
    have hchain := parseGPXGo_chain ps (mkFirstPoint p) tl hgo
    haveI : IsTrans DPoint (fun a b => a.Distance ≤ b.Distance) :=
      ⟨fun a b c hab hbc => le_trans hab hbc⟩
    refine ⟨List.chain_iff_pairwise.mp hchain, rfl, rfl, rfl, rfl, ?_⟩
    simp [durationSinceStart]

/-- Witness for C4 on the concrete successful run over `[ptO, ptOneHour]`. -/
theorem parseGPX_mono_and_first_zero_witness :
    List.Pairwise (fun a b => a.Distance ≤ b.Distance) [mkFirstPoint ptO, dpOneHour] ∧
      [mkFirstPoint ptO, dpOneHour].head? = some (mkFirstPoint ptO) ∧
      (mkFirstPoint ptO).Distance = 0 ∧ (mkFirstPoint ptO).Speed = 0 ∧
      (mkFirstPoint ptO).Grade = 0 ∧
      durationSinceStart [mkFirstPoint ptO, dpOneHour] 0 = 0 :=
  parseGPX_mono_and_first_zero ptO [ptOneHour] [mkFirstPoint ptO, dpOneHour]
    run_ptO_ptOneHour

/-- C5: for every successfully stepped consecutive pair, if the candidate
speed differs from the previous stored speed by at least
`MAX_SPEED_STEP_SIZE` (10), the new point's stored speed is the previous
speed unchanged, otherwise the candidate; independently, likewise for
grade against `MAX_GRADE_STEP_SIZE` (40). -/
theorem stepPoint_clamps_speed_grade (prev : DPoint) (curr : Pt) (d2 : DPoint)
    (s g : ℝ) (hstep : stepPoint prev curr = .ok d2)
    (hs : calcSpeed prev.pt curr = .ok s) (hg : calcGrade prev.pt curr = .ok g) :
    ((MAX_SPEED_STEP_SIZE ≤ |s - prev.Speed| → d2.Speed = prev.Speed) ∧
        (|s - prev.Speed| < MAX_SPEED_STEP_SIZE → d2.Speed = s)) ∧
      ((MAX_GRADE_STEP_SIZE ≤ |g - prev.Grade| → d2.Grade = prev.Grade) ∧
        (|g - prev.Grade| < MAX_GRADE_STEP_SIZE → d2.Grade = g)) := by
  obtain ⟨dist, s2, g2, hd2, hs2, hg2, hlt, hrec⟩ := stepPoint_ok_inv hstep
  obtain rfl : s = s2 := Except.ok.inj (hs.symm.trans hs2)
  obtain rfl : g = g2 := Except.ok.inj (hg.symm.trans hg2)
  subst hrec
  refine ⟨⟨fun hge => ?_, fun hlt2 => ?_⟩, fun hge => ?_, fun hlt2 => ?_⟩
  · show (if |s - prev.Speed| < MAX_SPEED_STEP_SIZE then s else prev.Speed) = prev.Speed
    rw [if_neg (not_lt.mpr hge)]
  · show (if |s - prev.Speed| < MAX_SPEED_STEP_SIZE then s else prev.Speed) = s
    rw [if_pos hlt2]
  · show (if |g - prev.Grade| < MAX_GRADE_STEP_SIZE then g else prev.Grade) = prev.Grade
    rw [if_neg (not_lt.mpr hge)]
  · show (if |g - prev.Grade| < MAX_GRADE_STEP_SIZE then g else prev.Grade) = g
    rw [if_pos hlt2]

/-- Witness for C5: previous stored speed 10, candidate speed 10000,
threshold 10 - the stored speed stays 10 (unchanged). -/
theorem stepPoint_clamps_speed_grade_witness : dpStep5.Speed = dpPrev10.Speed :=
  (stepPoint_clamps_speed_grade dpPrev10 ptFast dpStep5 10000 0
      step_dpPrev10_ptFast speed_ptO_ptFast grade_ptO_ptFast).1.1
    (by
      simp only [dpPrev10, MAX_SPEED_STEP_SIZE]
      rw [show (10000 : ℝ) - 10 = 9990 by norm_num, abs_of_nonneg (by norm_num)]
      norm_num)

/-- C6 (code bug): the distance-step threshold `0.1 * FT_PER_MILE`
evaluates to 528, which line 81 compares against an increment measured in
miles (so 528 miles, not a fixed fraction of a mile), and when the
geometric increment reaches it the step raises a type error - Python
multiplies the previous speed (float) by a `timedelta` and adds that
`timedelta` to a float - instead of advancing cumulative distance by
previous speed times elapsed duration. -/
theorem distance_fallback_type_error :
    MAX_DISTANCE_STEP_SIZE = 528 ∧
      stepPoint (mkFirstPoint ptO) ptFar = .error .typeError := by
  constructor
  · rw [MAX_DISTANCE_STEP_SIZE, FT_PER_MILE]; norm_num
  · have hd : calcMilesDefault (mkFirstPoint ptO).pt ptFar = .ok 5280 := miles_ptO_ptFar
    have hs : calcSpeed (mkFirstPoint ptO).pt ptFar = .ok 5280 := speed_ptO_ptFar
    have hg : calcGrade (mkFirstPoint ptO).pt ptFar = .ok 0 := grade_ptO_ptFar
    simp only [stepPoint, hd, hs, hg]
    rw [if_neg]
    rw [MAX_DISTANCE_STEP_SIZE, FT_PER_MILE]
    norm_num

/-- C7: two consecutive points with identical timestamps make `calcSpeed`
fail with an explicit error - never a numeric (infinite or NaN) value -
and whenever the all-axes quotient is nonnegative (in particular whenever
the positions differ with no elevation drop) that failure is precisely the
division by zero. -/
theorem calcSpeed_zero_elapsed_fails (a b : Pt) (h : a.Timestamp = b.Timestamp) :
    (∃ e, calcSpeed a b = .error e) ∧
      (0 ≤ quotientSum a b allAxes → calcSpeed a b = .error .divByZero) := by
  have hΔ : b.Timestamp - a.Timestamp = 0 := by omega
  have hh : codeHours 0 = 0 := by
    have h1 : tdSeconds 0 = 0 := by decide
    have h2 : tdMicroseconds 0 = 0 := by decide
    rw [codeHours, h1, h2]; norm_num
  cases hm : calcMilesDefault a b with
  | error e =>
    refine ⟨⟨e, by simp only [calcSpeed, hm]⟩, fun hq => ?_⟩
    rw [calcMilesDefault, calcMiles_ok_of_nonneg hq] at hm
    exact Except.noConfusion hm
  | ok m =>
    have hfail : calcSpeed a b = .error .divByZero := by
      simp only [calcSpeed, hm, hΔ, hh]
      exact if_pos trivial
    exact ⟨⟨_, hfail⟩, fun _ => hfail⟩

/-- Witness for C7: `ptO` and a same-timestamp point one degree of latitude
away. -/
theorem calcSpeed_zero_elapsed_fails_witness :
    calcSpeed ptO ⟨0, 1, 0, 0⟩ = .error .divByZero :=
  (calcSpeed_zero_elapsed_fails ptO ⟨0, 1, 0, 0⟩ rfl).2 (by
    rw [quotientSum_allAxes]
    simp only [ptO]
    positivity)

/-- C8: grade equals the signed elevation rise in miles divided by the
horizontal-only (latitude + longitude) distance in miles, times 100, and
is defined as 0 whenever that horizontal distance is exactly zero; in
particular two points with identical latitude/longitude and an elevation
delta of +50 ft yield grade 0. -/
theorem calcGrade_matches_spec :
    (∀ a b : Pt, calcGrade a b = .ok (specGrade a b)) ∧
      calcGrade ptO ptEleUp50 = .ok 0 := by
  have main : ∀ a b : Pt, calcGrade a b = .ok (specGrade a b) := by
    intro a b
    have hm := calcMiles_ok_of_nonneg (quotientSum_horiz_nonneg a b)
    simp only [calcGrade, hm, specGrade, quotientSum_horiz, FT_PER_MILE]
    split_ifs with h0
    · rfl
    · rfl
  refine ⟨main, ?_⟩
  rw [main ptO ptEleUp50]
  have hz : specGrade ptO ptEleUp50 = 0 := by
    rw [specGrade]
    rw [if_pos]
    simp only [ptO, ptEleUp50]
    norm_num [Real.sqrt_zero]
  rw [hz]

/-- C9 (amended): given well-formed input, the horizontal-only distance and
the grade computation are always defined, and the all-axes distance
computation is defined whenever its quotient - which adds the raw, possibly
negative elevation delta - is nonnegative; it is not defined for every
pair of points. -/
theorem arithmetic_total_on_nonneg_quotient :
    (∀ a b : Pt, 0 ≤ quotientSum a b allAxes → ∃ r, calcMiles a b allAxes = .ok r) ∧
      (∀ a b : Pt, ∃ r, calcMiles a b [Axis.lat, Axis.lon] = .ok r) ∧
      (∀ a b : Pt, ∃ g, calcGrade a b = .ok g) := by
  refine ⟨fun a b h => ⟨_, calcMiles_ok_of_nonneg h⟩,
    fun a b => ⟨_, calcMiles_ok_of_nonneg (quotientSum_horiz_nonneg a b)⟩,
    fun a b => ?_⟩
  have hm := calcMiles_ok_of_nonneg (quotientSum_horiz_nonneg a b)
  by_cases h0 : Real.sqrt (quotientSum a b [Axis.lat, Axis.lon]) / FT_PER_MILE = 0
  · exact ⟨0, by simp only [calcGrade, hm]; rw [if_pos h0]⟩
  · exact ⟨_, by simp only [calcGrade, hm]; rw [if_neg h0]⟩

/-- Counterexample to C9 as stated: a well-formed pair whose only change is
a 50 ft elevation drop makes the all-axes quotient −50, so the all-axes
distance computation (line 75) fails with a sqrt-domain error. -/
theorem calcMiles_ele_drop_error :
    calcMiles ptO ptEleDrop allAxes = .error .sqrtDomain := by
  have hq : quotientSum ptO ptEleDrop allAxes = -50 := by
    rw [quotientSum_allAxes]
    simp only [ptO, ptEleDrop]
    norm_num
  rw [calcMiles, if_pos (by rw [hq]; norm_num)]

/-- Witness for C9 (amended) at `ptO`, `ptEleUp50` (quotient 50 ≥ 0). -/
theorem arithmetic_total_on_nonneg_quotient_witness :
    ∃ r, calcMiles ptO ptEleUp50 allAxes = .ok r :=
  arithmetic_total_on_nonneg_quotient.1 ptO ptEleUp50 (by
    rw [quotientSum_allAxes]
    simp only [ptO, ptEleUp50]
    norm_num)

/-- C10: because the first point's stored speed and grade are 0, in every
successful run whose second point's candidate speed is at least
`MAX_SPEED_STEP_SIZE` (10), the second output point's stored speed is 0,
not the candidate; likewise its stored grade is 0 whenever the candidate
grade's absolute value is at least `MAX_GRADE_STEP_SIZE` (40). -/
theorem second_point_clamps_to_zero (p0 p1 : Pt) (rest : List Pt)
    (out : List DPoint) (d : DPoint)
    (hrun : parseGPXPoints (p0 :: p1 :: rest) = .ok out) (hd : out[1]? = some d) :
    (∀ s, calcSpeed p0 p1 = .ok s → MAX_SPEED_STEP_SIZE ≤ s → d.Speed = 0) ∧
      (∀ g, calcGrade p0 p1 = .ok g → MAX_GRADE_STEP_SIZE ≤ |g| → d.Grade = 0) := by
  obtain ⟨d1, tl, hstep, hout⟩ := parseGPXPoints_two_inv hrun
  subst hout
  simp only [List.getElem?_cons_succ, List.getElem?_cons_zero] at hd
  obtain rfl : d1 = d := Option.some.inj hd
  obtain ⟨dist, s2, g2, hd2, hs2, hg2, hlt, hrec⟩ := stepPoint_ok_inv hstep
  subst hrec
  constructor
  · intro s hs hge
    obtain rfl : s = s2 := Except.ok.inj (hs.symm.trans hs2)
    show (if |s - (0 : ℝ)| < MAX_SPEED_STEP_SIZE then s else (0 : ℝ)) = 0
    rw [if_neg]
    rw [sub_zero]
    exact not_lt.mpr (le_trans hge (le_abs_self s))
  · intro g hg hge
    obtain rfl : g = g2 := Except.ok.inj (hg.symm.trans hg2)
    show (if |g - (0 : ℝ)| < MAX_GRADE_STEP_SIZE then g else (0 : ℝ)) = 0
    rw [if_neg]
    rw [sub_zero]
    exact not_lt.mpr hge

/-- Witness for C10: on the run `[ptO, ptClimb]` (candidate speed about
10002 ≥ 10, candidate grade about 200 ≥ 40) the second output point stores
speed 0 and grade 0. -/
theorem second_point_clamps_to_zero_witness : dpClimb.Speed = 0 ∧ dpClimb.Grade = 0 := by
  have h := second_point_clamps_to_zero ptO ptClimb [] [mkFirstPoint ptO, dpClimb]
    dpClimb run_ptO_ptClimb rfl
  exact ⟨h.1 (660125 / 66) speed_ptO_ptClimb (by rw [MAX_SPEED_STEP_SIZE]; norm_num),
    h.2 (52805 / 264) grade_ptO_ptClimb (by
      rw [MAX_GRADE_STEP_SIZE, abs_of_nonneg (by norm_num)]
      norm_num)⟩

end GpxToCsv
